import Mathlib

/-!
Verification development for the mcp-server-zep-cloud repository.

The repository is a thin integration layer over a remote memory-graph
service.  Its observable logic lives in two files:

  * src/core/zep_cloud_client.py : SDK-backed client (class ZepCloudClient)
  * src/core/zep_cloud_server.py : tool layer plus a REST-backed client
    used as a local fallback implementation when the SDK import fails.

This file gives a shallow embedding of that logic.  Python strings are
`List Char` (Python `len` counts code points, as does `List.length`),
Python dicts and JSON values are the inductive `JVal`, fallible code
returns `Option` or `Except`, and the opaque remote service is a
parameter: each operation either rejects before the network, returns a
synthesized fallback result, or issues a request value that records
exactly what would be transmitted.

The standard-library functions the code relies on (`json.loads`,
`json.dumps`, `ast.literal_eval`) are embedded as executable fuel-based
parsers and printers over `JVal`; their doc comments state the modelled
subset.
-/

/-- Convert a Lean string literal to the Python-string model. -/
def pys (s : String) : List Char := s.data

/-- The single-quote character, used to build Python string literals. -/
def sqc : Char := Char.ofNat 39

/-- JSON whitespace accepted by json.loads between tokens. -/
def jsonWsChar (c : Char) : Bool := c = ' ' || c = '\t' || c = '\n' || c = '\r'

/-- Drop leading JSON whitespace. -/
def skipJWs (s : List Char) : List Char := s.dropWhile jsonWsChar

/-- Python str whitespace for strip and lstrip (ASCII subset). -/
def isPyWs (c : Char) : Bool :=
  c = ' ' || c = '\t' || c = '\n' || c = '\r' || c = '\x0b' || c = '\x0c'

/-- Model of Python str.lstrip with no arguments. -/
def pyLstrip (s : List Char) : List Char := s.dropWhile isPyWs

/-- Model of Python str.strip with no arguments. -/
def pyStrip (s : List Char) : List Char :=
  ((s.dropWhile isPyWs).reverse.dropWhile isPyWs).reverse

/-- Model of Python str.startswith with a single-character argument. -/
def pyStartsWith (c : Char) : List Char → Bool
  | [] => false
  | a :: _ => a == c

/-- Model of Python str.endswith with a single-character argument. -/
def pyEndsWith (c : Char) (s : List Char) : Bool :=
  match s.getLast? with
  | some a => a == c
  | none => false

/-- Model of the Python slice s[1:-1]. -/
def pySlice1m1 (s : List Char) : List Char := (s.drop 1).dropLast

/-- Model of Python str.lower restricted to ASCII letters. -/
def pyLower (s : List Char) : List Char := s.map Char.toLower

/-- Whether p is a prefix of s, by character comparison. -/
def listStarts (p : List Char) (s : List Char) : Bool :=
  match p, s with
  | [], _ => true
  | _ :: _, [] => false
  | a :: p2, b :: s2 => a == b && listStarts p2 s2

/-- Model of the Python operator `p in s` on strings: substring test. -/
def listContains (p : List Char) : List Char → Bool
  | [] => p.isEmpty
  | b :: t => listStarts p (b :: t) || listContains p t

/-- Decimal digit test. -/
def isDigitCh (c : Char) : Bool := '0' ≤ c && c ≤ '9'

/-- Hexadecimal digit test. -/
def isHexCh (c : Char) : Bool :=
  isDigitCh c || ('a' ≤ c && c ≤ 'f') || ('A' ≤ c && c ≤ 'F')

/-- Value of a hexadecimal digit. -/
def hexVal (c : Char) : Nat :=
  if isDigitCh c then c.toNat - 48
  else if 'a' ≤ c then c.toNat - 87
  else c.toNat - 55

/-- Decimal digits of a natural number, most significant first. -/
def natToChars (n : Nat) : List Char := Nat.toDigits 10 n

/-- JSON values, also used as the model of Python dict/list/str/int
structures.  Numbers keep their source text (the claims under proof never
depend on numeric normalization, and this avoids floating point). -/
inductive JVal where
  | jnull : JVal
  | jbool : Bool → JVal
  | jnum : List Char → JVal
  | jstr : List Char → JVal
  | jarr : List JVal → JVal
  | jobj : List (List Char × JVal) → JVal

/-- Parse the body of a JSON string after the opening quote, returning the
decoded characters and the rest of the input.  Models the json.loads string
grammar with strict control-character rejection. -/
def jparseStr : Nat → List Char → Option (List Char × List Char)
  | 0, _ => none
  | _, [] => none
  | fuel + 1, c :: rest =>
    if c = '"' then some ([], rest)
    else if c = '\\' then
      match rest with
      | [] => none
      | e :: r2 =>
        if e = '"' || e = '\\' || e = '/' then
          (jparseStr fuel r2).map (fun p => (e :: p.1, p.2))
        else if e = 'n' then (jparseStr fuel r2).map (fun p => ('\n' :: p.1, p.2))
        else if e = 't' then (jparseStr fuel r2).map (fun p => ('\t' :: p.1, p.2))
        else if e = 'r' then (jparseStr fuel r2).map (fun p => ('\r' :: p.1, p.2))
        else if e = 'b' then (jparseStr fuel r2).map (fun p => ('\x08' :: p.1, p.2))
        else if e = 'f' then (jparseStr fuel r2).map (fun p => ('\x0c' :: p.1, p.2))
        else if e = 'u' then
          match r2 with
          | h1 :: h2 :: h3 :: h4 :: r3 =>
            if isHexCh h1 && isHexCh h2 && isHexCh h3 && isHexCh h4 then
              let code := ((hexVal h1 * 16 + hexVal h2) * 16 + hexVal h3) * 16 + hexVal h4
              (jparseStr fuel r3).map (fun p => (Char.ofNat code :: p.1, p.2))
            else none
          | _ => none
        else none
    else if c.toNat < 32 then none
    else (jparseStr fuel rest).map (fun p => (c :: p.1, p.2))

/-- Parse a JSON number at the head of the input, returning its source text
and the rest.  Grammar: optional minus, integer part without leading zeros,
optional fraction, optional exponent. -/
def jparseNum (s : List Char) : Option (List Char × List Char) :=
  let (signTxt, s1) :=
    match s with
    | '-' :: t => (['-'], t)
    | _ => (([] : List Char), s)
  match s1 with
  | [] => none
  | d :: _ =>
    if !isDigitCh d then none
    else
      let intPart := s1.takeWhile isDigitCh
      let s2 := s1.dropWhile isDigitCh
      if 1 < intPart.length && pyStartsWith '0' intPart then none
      else
        let (fracTxt, s3) :=
          match s2 with
          | '.' :: t =>
            let ds := t.takeWhile isDigitCh
            if ds.isEmpty then (none, s2)
            else (some ('.' :: ds), t.dropWhile isDigitCh)
          | _ => (none, s2)
        match fracTxt with
        | none =>
          match s2 with
          | '.' :: _ => none
          | _ =>
            let (expTxt, s4) := jparseExp s3
            match expTxt with
            | none =>
              match s3 with
              | 'e' :: _ => none
              | 'E' :: _ => none
              | _ => some (signTxt ++ intPart, s4)
            | some e => some (signTxt ++ intPart ++ e, s4)
        | some f =>
          let (expTxt, s4) := jparseExp s3
          match expTxt with
          | none =>
            match s3 with
            | 'e' :: _ => none
            | 'E' :: _ => none
            | _ => some (signTxt ++ intPart ++ f, s4)
          | some e => some (signTxt ++ intPart ++ f ++ e, s4)
where
  /-- Parse an optional exponent part; on malformed exponent returns none
  with the input unchanged (the caller then rejects). -/
  jparseExp (s : List Char) : Option (List Char) × List Char :=
    match s with
    | 'e' :: t => jparseExpTail 'e' t
    | 'E' :: t => jparseExpTail 'E' t
    | _ => (none, s)
  jparseExpTail (e : Char) (t : List Char) : Option (List Char) × List Char :=
    match t with
    | '+' :: u =>
      let ds := u.takeWhile isDigitCh
      if ds.isEmpty then (none, e :: t) else (some (e :: '+' :: ds), u.dropWhile isDigitCh)
    | '-' :: u =>
      let ds := u.takeWhile isDigitCh
      if ds.isEmpty then (none, e :: t) else (some (e :: '-' :: ds), u.dropWhile isDigitCh)
    | u =>
      let ds := u.takeWhile isDigitCh
      if ds.isEmpty then (none, e :: t) else (some (e :: ds), u.dropWhile isDigitCh)

mutual
/-- Parse one JSON value at the head of the input (after optional
whitespace).  Models json.loads with its default acceptance of the
non-standard NaN and Infinity literals. -/
def jparseVal : Nat → List Char → Option (JVal × List Char)
  | 0, _ => none
  | fuel + 1, s0 =>
    let s := skipJWs s0
    match s with
    | [] => none
    | c :: rest =>
      if c = '{' then
        let r := skipJWs rest
        match r with
        | '}' :: r2 => some (.jobj [], r2)
        | _ => (jparseObjItems fuel r).map (fun p => (.jobj p.1, p.2))
      else if c = '[' then
        let r := skipJWs rest
        match r with
        | ']' :: r2 => some (.jarr [], r2)
        | _ => (jparseArrItems fuel r).map (fun p => (.jarr p.1, p.2))
      else if c = '"' then
        (jparseStr fuel rest).map (fun p => (.jstr p.1, p.2))
      else if listStarts (pys "true") s then some (.jbool true, s.drop 4)
      else if listStarts (pys "false") s then some (.jbool false, s.drop 5)
      else if listStarts (pys "null") s then some (.jnull, s.drop 4)
      else if listStarts (pys "NaN") s then some (.jnum (pys "NaN"), s.drop 3)
      else if listStarts (pys "Infinity") s then some (.jnum (pys "Infinity"), s.drop 8)
      else if listStarts (pys "-Infinity") s then some (.jnum (pys "-Infinity"), s.drop 9)
      else (jparseNum s).map (fun p => (.jnum p.1, p.2))

/-- Parse the comma-separated items of a JSON array up to the closing
bracket; trailing commas are rejected, as in json.loads. -/
def jparseArrItems : Nat → List Char → Option (List JVal × List Char)
  | 0, _ => none
  | fuel + 1, s =>
    match jparseVal fuel s with
    | none => none
    | some (v, r) =>
      match skipJWs r with
      | ',' :: r2 => (jparseArrItems fuel r2).map (fun p => (v :: p.1, p.2))
      | ']' :: r2 => some ([v], r2)
      | _ => none

/-- Parse the members of a JSON object up to the closing brace; keys must
be strings and trailing commas are rejected, as in json.loads. -/
def jparseObjItems : Nat → List Char → Option (List (List Char × JVal) × List Char)
  | 0, _ => none
  | fuel + 1, s =>
    match skipJWs s with
    | '"' :: r =>
      match jparseStr fuel r with
      | none => none
      | some (k, r2) =>
        match skipJWs r2 with
        | ':' :: r3 =>
          match jparseVal fuel r3 with
          | none => none
          | some (v, r4) =>
            match skipJWs r4 with
            | ',' :: r5 => (jparseObjItems fuel r5).map (fun p => ((k, v) :: p.1, p.2))
            | '}' :: r5 => some ([(k, v)], r5)
            | _ => none
        | _ => none
    | _ => none
end

/-- Model of Python json.loads: parse a complete JSON document, rejecting
trailing garbage.  Returns none where json.loads raises JSONDecodeError. -/
def jsonParse (s : List Char) : Option JVal :=
  match jparseVal (s.length + 2) s with
  | some (v, rest) => if (skipJWs rest).isEmpty then some v else none
  | none => none

/-- Hexadecimal digit character for a value below 16, lowercase. -/
def hexDigitCh (n : Nat) : Char :=
  if n < 10 then Char.ofNat (48 + n) else Char.ofNat (87 + (n - 10))

/-- A \uXXXX escape for a 16-bit code unit. -/
def u16Escape (n : Nat) : List Char :=
  ['\\', 'u', hexDigitCh (n / 4096 % 16), hexDigitCh (n / 256 % 16),
   hexDigitCh (n / 16 % 16), hexDigitCh (n % 16)]

/-- Escape one character the way json.dumps does with its default
ensure_ascii=True: short escapes for quote, backslash and common controls,
\uXXXX for other controls and all non-ASCII (surrogate pairs above the
basic multilingual plane). -/
def jescapeChar (c : Char) : List Char :=
  if c = '"' then ['\\', '"']
  else if c = '\\' then ['\\', '\\']
  else if c = '\n' then ['\\', 'n']
  else if c = '\t' then ['\\', 't']
  else if c = '\r' then ['\\', 'r']
  else if c = '\x08' then ['\\', 'b']
  else if c = '\x0c' then ['\\', 'f']
  else if c.toNat < 32 || 126 < c.toNat then
    if c.toNat ≤ 65535 then u16Escape c.toNat
    else
      let m := c.toNat - 65536
      u16Escape (55296 + m / 1024) ++ u16Escape (56320 + m % 1024)
  else [c]

/-- Escape a whole string body for json.dumps output. -/
def jescapeStr (s : List Char) : List Char :=
  s.foldr (fun c acc => jescapeChar c ++ acc) []

mutual
/-- Model of Python json.dumps with default options: separators are comma
plus space and colon plus space, ensure_ascii escaping, object key order
preserved (Python dicts are ordered). -/
def jsonDumps : JVal → List Char
  | .jnull => pys "null"
  | .jbool true => pys "true"
  | .jbool false => pys "false"
  | .jnum t => t
  | .jstr s => '"' :: (jescapeStr s ++ ['"'])
  | .jarr xs => '[' :: (jsonDumpsItems xs ++ [']'])
  | .jobj fs => '{' :: (jsonDumpsFields fs ++ ['}'])

/-- Comma-separated array items for jsonDumps. -/
def jsonDumpsItems : List JVal → List Char
  | [] => []
  | [x] => jsonDumps x
  | x :: y :: ys => jsonDumps x ++ pys ", " ++ jsonDumpsItems (y :: ys)

/-- Comma-separated object members for jsonDumps. -/
def jsonDumpsFields : List (List Char × JVal) → List Char
  | [] => []
  | [(k, v)] => '"' :: (jescapeStr k ++ ['"']) ++ pys ": " ++ jsonDumps v
  | (k, v) :: g :: gs =>
    '"' :: (jescapeStr k ++ ['"']) ++ pys ": " ++ jsonDumps v ++ pys ", " ++
      jsonDumpsFields (g :: gs)
end

/-- Escape a string body for pyReprVal (approximate: backslash, quote and
the common control characters). -/
def pyReprStrBody (s : List Char) : List Char :=
  s.foldr
    (fun c acc =>
      (if c = '\\' then ['\\', '\\']
       else if c = sqc then ['\\', sqc]
       else if c = '\n' then ['\\', 'n']
       else if c = '\t' then ['\\', 't']
       else if c = '\r' then ['\\', 'r']
       else [c]) ++ acc)
    []

mutual
/-- Model of Python repr for the dict values the client can receive:
single-quoted strings with minimal escaping, True/False/None keywords,
numbers as their text.  Used only for the str(data) length computation on
the non-JSON dict path of the SDK client. -/
def pyReprVal : JVal → List Char
  | .jnull => pys "None"
  | .jbool true => pys "True"
  | .jbool false => pys "False"
  | .jnum t => t
  | .jstr s => sqc :: (pyReprStrBody s ++ [sqc])
  | .jarr xs => '[' :: (pyReprItems xs ++ [']'])
  | .jobj fs => '{' :: (pyReprFields fs ++ ['}'])

/-- Comma-separated list items for pyReprVal. -/
def pyReprItems : List JVal → List Char
  | [] => []
  | [x] => pyReprVal x
  | x :: y :: ys => pyReprVal x ++ pys ", " ++ pyReprItems (y :: ys)

/-- Comma-separated dict members for pyReprVal. -/
def pyReprFields : List (List Char × JVal) → List Char
  | [] => []
  | [(k, v)] => (sqc :: (pyReprStrBody k ++ [sqc])) ++ pys ": " ++ pyReprVal v
  | (k, v) :: g :: gs =>
    (sqc :: (pyReprStrBody k ++ [sqc])) ++ pys ": " ++ pyReprVal v ++ pys ", " ++
      pyReprFields (g :: gs)
end

/-- Parse the body of a Python string literal after its opening quote q.
Models the escapes the repair path can meet: backslash, both quotes,
n, t, r, b, f, xHH and uXXXX; any other backslash pair is kept verbatim,
as in Python source strings. -/
def pparseStrBody (q : Char) : Nat → List Char → Option (List Char × List Char)
  | 0, _ => none
  | _, [] => none
  | fuel + 1, c :: rest =>
    if c = q then some ([], rest)
    else if c = '\\' then
      match rest with
      | [] => none
      | e :: r2 =>
        if e = '\\' || e = '"' || e = sqc then
          (pparseStrBody q fuel r2).map (fun p => (e :: p.1, p.2))
        else if e = 'n' then (pparseStrBody q fuel r2).map (fun p => ('\n' :: p.1, p.2))
        else if e = 't' then (pparseStrBody q fuel r2).map (fun p => ('\t' :: p.1, p.2))
        else if e = 'r' then (pparseStrBody q fuel r2).map (fun p => ('\r' :: p.1, p.2))
        else if e = 'b' then (pparseStrBody q fuel r2).map (fun p => ('\x08' :: p.1, p.2))
        else if e = 'f' then (pparseStrBody q fuel r2).map (fun p => ('\x0c' :: p.1, p.2))
        else if e = 'x' then
          match r2 with
          | h1 :: h2 :: r3 =>
            if isHexCh h1 && isHexCh h2 then
              (pparseStrBody q fuel r3).map
                (fun p => (Char.ofNat (hexVal h1 * 16 + hexVal h2) :: p.1, p.2))
            else none
          | _ => none
        else if e = 'u' then
          match r2 with
          | h1 :: h2 :: h3 :: h4 :: r3 =>
            if isHexCh h1 && isHexCh h2 && isHexCh h3 && isHexCh h4 then
              let code := ((hexVal h1 * 16 + hexVal h2) * 16 + hexVal h3) * 16 + hexVal h4
              (pparseStrBody q fuel r3).map (fun p => (Char.ofNat code :: p.1, p.2))
            else none
          | _ => none
        else (pparseStrBody q fuel r2).map (fun p => ('\\' :: e :: p.1, p.2))
    else (pparseStrBody q fuel rest).map (fun p => (c :: p.1, p.2))

/-- Parse a Python integer literal with optional sign; the stored text is
the canonical form the later json.dumps would print (sign normalized,
leading plus dropped).  The model covers the integer literals the JSON
repair path is exercised with; floats, hex and exponent forms are outside
the modelled subset. -/
def pparseInt (s : List Char) : Option (List Char × List Char) :=
  let (negSign, s1) :=
    match s with
    | '-' :: t => (true, t)
    | '+' :: t => (false, t)
    | _ => (false, s)
  match s1 with
  | [] => none
  | d :: _ =>
    if !isDigitCh d then none
    else
      let ds := s1.takeWhile isDigitCh
      let rest := s1.dropWhile isDigitCh
      if 1 < ds.length && pyStartsWith '0' ds then none
      else
        match rest with
        | '.' :: _ => none
        | 'e' :: _ => none
        | 'E' :: _ => none
        | 'x' :: _ => none
        | _ => some ((if negSign then '-' :: ds else ds), rest)

/-- Convert a parsed Python dict key to the text json.dumps would use for
it: strings stay themselves, integers their digits, True, False and None
their JSON spellings.  Composite keys are outside the modelled subset. -/
def literalKeyText : JVal → Option (List Char)
  | .jstr s => some s
  | .jnum t => some t
  | .jbool true => some (pys "true")
  | .jbool false => some (pys "false")
  | .jnull => some (pys "null")
  | _ => none

mutual
/-- Parse one Python literal value.  Models ast.literal_eval on the forms
the JSON repair path targets: dicts, lists, single- or double-quoted
strings, integers, True, False, None, with trailing commas allowed inside
brackets.  Tuples, sets, floats and complex numbers are outside the
modelled subset. -/
def pparseVal : Nat → List Char → Option (JVal × List Char)
  | 0, _ => none
  | fuel + 1, s0 =>
    let s := skipJWs s0
    match s with
    | [] => none
    | c :: rest =>
      if c = '{' then
        match skipJWs rest with
        | '}' :: r2 => some (.jobj [], r2)
        | r => (pparseDictItems fuel r).map (fun p => (.jobj p.1, p.2))
      else if c = '[' then
        match skipJWs rest with
        | ']' :: r2 => some (.jarr [], r2)
        | r => (pparseListItems fuel r).map (fun p => (.jarr p.1, p.2))
      else if c = '"' then
        (pparseStrBody '"' fuel rest).map (fun p => (.jstr p.1, p.2))
      else if c = sqc then
        (pparseStrBody sqc fuel rest).map (fun p => (.jstr p.1, p.2))
      else if listStarts (pys "True") s then some (.jbool true, s.drop 4)
      else if listStarts (pys "False") s then some (.jbool false, s.drop 5)
      else if listStarts (pys "None") s then some (.jnull, s.drop 4)
      else (pparseInt s).map (fun p => (.jnum p.1, p.2))

/-- Parse the items of a Python list literal up to the closing bracket;
a trailing comma is allowed. -/
def pparseListItems : Nat → List Char → Option (List JVal × List Char)
  | 0, _ => none
  | fuel + 1, s =>
    match pparseVal fuel s with
    | none => none
    | some (v, r) =>
      match skipJWs r with
      | ',' :: r2 =>
        match skipJWs r2 with
        | ']' :: r3 => some ([v], r3)
        | r3 => (pparseListItems fuel r3).map (fun p => (v :: p.1, p.2))
      | ']' :: r2 => some ([v], r2)
      | _ => none

/-- Parse the members of a Python dict literal up to the closing brace;
keys are converted to the text json.dumps would print for them and a
trailing comma is allowed. -/
def pparseDictItems : Nat → List Char → Option (List (List Char × JVal) × List Char)
  | 0, _ => none
  | fuel + 1, s =>
    match pparseVal fuel s with
    | none => none
    | some (kv, r) =>
      match literalKeyText kv with
      | none => none
      | some k =>
        match skipJWs r with
        | ':' :: r2 =>
          match pparseVal fuel r2 with
          | none => none
          | some (v, r3) =>
            match skipJWs r3 with
            | ',' :: r4 =>
              match skipJWs r4 with
              | '}' :: r5 => some ([(k, v)], r5)
              | r5 => (pparseDictItems fuel r5).map (fun p => ((k, v) :: p.1, p.2))
            | '}' :: r4 => some ([(k, v)], r4)
            | _ => none
        | _ => none
end

/-- Model of ast.literal_eval as used by the tool repair path: parse a
complete Python literal, rejecting trailing garbage.  Returns none where
ast.literal_eval raises (or where the later json.dumps of its result
would raise, as for composite dict keys). -/
def pyLiteralParse (s : List Char) : Option JVal :=
  match pparseVal (s.length + 2) s with
  | some (v, rest) => if (skipJWs rest).isEmpty then some v else none
  | none => none

/-- A payload as the Python layer can receive it: a string or a dict. -/
inductive PyData where
  | pstr : List Char → PyData
  | pdict : List (List Char × JVal) → PyData

/-- Structured failures.  Each constructor stands for one error-message
f-string of the source; the CPython parser diagnostics interpolated into
some of them are opaque here. -/
inductive PyErr where
  /-- zep_cloud_client.py line 296: User ID is required. -/
  | userIdRequired : PyErr
  /-- zep_cloud_client.py line 299: Data is required. -/
  | dataRequired : PyErr
  /-- client line 304 and server lines 327 and 607: Invalid data type. -/
  | invalidDataType : List Char → PyErr
  /-- zep_cloud_client.py line 323: data size exceeds 100KB limit. -/
  | sizeExceeds100KB : Nat → PyErr
  /-- zep_cloud_client.py line 360: Invalid JSON data plus diagnostic. -/
  | invalidJsonData : PyErr
  /-- zep_cloud_server.py line 665: Invalid JSON format plus diagnostic. -/
  | invalidJsonFormat : PyErr

/-- The data types accepted by add_graph_data on every path. -/
def validTypes : List (List Char) := [pys "text", pys "json", pys "message"]

/-- Result of the SDK-backed add_graph_data up to the remote call: a
structured rejection (success false, nothing transmitted), or a send of
the final payload to client.graph.add; the flag records whether the
outer-quote repair of lines 336 to 348 rewrote the payload. -/
inductive SdkAddOutcome where
  | reject : PyErr → SdkAddOutcome
  | send : PyData → Bool → SdkAddOutcome

/-- The JSON-string validation and repair of zep_cloud_client.py lines
329 to 367: accept valid JSON unchanged; otherwise, when the string is
wrapped in double quotes with length above two and the interior starts
with a brace or bracket after lstrip, retry the interior; any other
failure re-raises the original JSONDecodeError, reported as the
Invalid JSON data error of line 360. -/
def sdkJsonNormalize (s : List Char) : Except PyErr (List Char × Bool) :=
  match jsonParse s with
  | some _ => .ok (s, false)
  | none =>
    if pyStartsWith '"' s && pyEndsWith '"' s && decide (2 < s.length) then
      let inner := pySlice1m1 s
      if pyStartsWith '{' (pyLstrip inner) || pyStartsWith '[' (pyLstrip inner) then
        match jsonParse inner with
        | some _ => .ok (inner, true)
        | none => .error .invalidJsonData
      else .error .invalidJsonData
    else .error .invalidJsonData

/-- ZepCloudClient.add_graph_data of zep_cloud_client.py lines 283 to 400,
up to the client.graph.add call: empty user id and missing data are
rejected, then the data type is validated against validTypes, dict
payloads with type json are serialized, the serialized length is checked
against the 100000 limit, and for type json a string payload passes
sdkJsonNormalize. -/
def sdk_add_graph_data (user_id : List Char) (data : Option PyData)
    (data_type : List Char) : SdkAddOutcome :=
  if user_id.isEmpty then .reject .userIdRequired
  else
    match data with
    | none => .reject .dataRequired
    | some d0 =>
      if data_type ∈ validTypes then
        let d1 : PyData :=
          match d0 with
          | .pdict fs => if data_type = pys "json" then .pstr (jsonDumps (.jobj fs)) else .pdict fs
          | .pstr s => .pstr s
        let dataLen : Nat :=
          match d1 with
          | .pstr s => s.length
          | .pdict fs => (pyReprVal (.jobj fs)).length
        if 100000 < dataLen then .reject (.sizeExceeds100KB dataLen)
        else if data_type = pys "json" then
          match d1 with
          | .pstr s =>
            match sdkJsonNormalize s with
            | .ok (s2, fixed) => .send (.pstr s2) fixed
            | .error e => .reject e
          | .pdict fs => .send (.pstr (jsonDumps (.jobj fs))) false
        else .send d1 false
      else .reject (.invalidDataType data_type)

/-- The JSON repair block of the add_graph_data tool, zep_cloud_server.py
lines 616 to 675: valid JSON passes unchanged; otherwise outer single
quotes are stripped unconditionally, outer double quotes are stripped when
the interior lstrips to a brace or bracket and parses, the result is
stripped of whitespace, a brace-delimited remainder is retried as a Python
literal and re-serialized, and a final json.loads decides between the
repaired payload and the Invalid JSON format rejection. -/
def toolJsonFix (s : List Char) : Except PyErr (List Char) :=
  match jsonParse s with
  | some _ => .ok s
  | none =>
    let s1 :=
      if pyStartsWith sqc s && pyEndsWith sqc s then pySlice1m1 s
      else if pyStartsWith '"' s && pyEndsWith '"' s && decide (2 < s.length) then
        let inner := pySlice1m1 s
        if (pyStartsWith '{' (pyLstrip inner) || pyStartsWith '[' (pyLstrip inner))
            && (jsonParse inner).isSome then inner
        else s
      else s
    let s2 := pyStrip s1
    let s3 :=
      if pyStartsWith '{' s2 && pyEndsWith '}' s2 then
        match pyLiteralParse s2 with
        | some v => jsonDumps v
        | none => s2
      else s2
    match jsonParse s3 with
    | some _ => .ok s3
    | none => .error .invalidJsonFormat

/-- The add_graph_data tool of zep_cloud_server.py lines 573 to 698,
composed with the SDK client it calls (the import of zep_cloud_client
succeeds in this repository, so the tool global client is the SDK one):
dict payloads with type json are serialized first, the data type is
validated, string payloads with type json run through toolJsonFix, and
the result is handed to sdk_add_graph_data. -/
def tool_add_graph_data (user_id : List Char) (data : PyData)
    (data_type : List Char) : SdkAddOutcome :=
  let data1 : PyData :=
    match data with
    | .pdict fs => if data_type = pys "json" then .pstr (jsonDumps (.jobj fs)) else .pdict fs
    | .pstr s => .pstr s
  if data_type ∈ validTypes then
    match data1 with
    | .pstr s =>
      if data_type = pys "json" then
        match toolJsonFix s with
        | .ok s2 => sdk_add_graph_data user_id (some (.pstr s2)) data_type
        | .error e => .reject e
      else sdk_add_graph_data user_id (some (.pstr s)) data_type
    | .pdict fs => sdk_add_graph_data user_id (some (.pdict fs)) data_type
  else .reject (.invalidDataType data_type)

/-- Python truthiness for the JSON-like values that reach the REST client
conditionals (None, empty containers, empty strings, False and zero are
falsy). -/
def pyTruthy : JVal → Bool
  | .jnull => false
  | .jbool b => b
  | .jnum t => !(t = ['0'] || t = pys "0.0" || t = pys "-0")
  | .jstr s => !s.isEmpty
  | .jarr xs => !xs.isEmpty
  | .jobj fs => !fs.isEmpty

/-- The Python idiom `metadata or {}`. -/
def pyOrEmptyDict : Option JVal → JVal
  | none => .jobj []
  | some v => if pyTruthy v then v else .jobj []

/-- The literal-null normalization of create_user and update_user: a
metadata value equal to the string null is treated as absent. -/
def pyNullNorm : Option JVal → Option JVal
  | some (.jstr s) => if s = pys "null" then none else some (.jstr s)
  | m => m

/-- An optional Python string as the JSON value json.dumps would print. -/
def optStrJ : Option (List Char) → JVal
  | none => .jnull
  | some s => .jstr s

/-- The Python idiom `if s:` for an optional string argument. -/
def optStrTruthy : Option (List Char) → Bool
  | none => false
  | some s => !s.isEmpty

/-- State of the REST-backed ZepCloudClient of zep_cloud_server.py lines
56 to 357: the base URL and the connectivity flag set once by
test_connection at construction. -/
structure RestClient where
  api_url : List Char
  fallback_mode : Bool

/-- Result of one REST client operation: a synthesized fallback result
(no network), a structured pre-network rejection, or an HTTP request with
method, URL and optional JSON body (the transmission itself and the
remote response are outside the model). -/
inductive RestOutcome where
  | simulated : JVal → RestOutcome
  | reject : PyErr → RestOutcome
  | request : List Char → List Char → Option JVal → RestOutcome

/-- The simulated create_user result of zep_cloud_server.py line 126. -/
def createUserFbResult (user_id : List Char) (metadata : Option JVal)
    (first_name last_name email : Option (List Char)) : JVal :=
  .jobj [(pys "user_id", .jstr user_id),
         (pys "metadata", pyOrEmptyDict metadata),
         (pys "first_name", optStrJ first_name),
         (pys "last_name", optStrJ last_name),
         (pys "email", optStrJ email),
         (pys "success", .jbool true),
         (pys "fallback", .jbool true)]

/-- ZepCloudClient.create_user, zep_cloud_server.py lines 118 to 148. -/
def rest_create_user (st : RestClient) (user_id : List Char)
    (metadata : Option JVal) (first_name last_name email : Option (List Char)) :
    RestOutcome :=
  let md := pyNullNorm metadata
  if st.fallback_mode then
    .simulated (createUserFbResult user_id md first_name last_name email)
  else
    let fields := [(pys "user_id", JVal.jstr user_id)]
    let fields := fields ++
      (match md with
       | some m => if pyTruthy m then [(pys "metadata", m)] else []
       | none => [])
    let fields := fields ++
      (if optStrTruthy first_name then [(pys "first_name", optStrJ first_name)] else [])
    let fields := fields ++
      (if optStrTruthy last_name then [(pys "last_name", optStrJ last_name)] else [])
    let fields := fields ++
      (if optStrTruthy email then [(pys "email", optStrJ email)] else [])
    .request (pys "POST") (st.api_url ++ pys "/users") (some (.jobj fields))

/-- The simulated get_user result of zep_cloud_server.py line 154. -/
def getUserFbResult (user_id : List Char) : JVal :=
  .jobj [(pys "user_id", .jstr user_id),
         (pys "success", .jbool true),
         (pys "fallback", .jbool true)]

/-- ZepCloudClient.get_user, zep_cloud_server.py lines 150 to 163. -/
def rest_get_user (st : RestClient) (user_id : List Char) : RestOutcome :=
  if st.fallback_mode then .simulated (getUserFbResult user_id)
  else .request (pys "GET") (st.api_url ++ pys "/users/" ++ user_id) none

/-- The simulated update_user result of zep_cloud_server.py line 173. -/
def updateUserFbResult (user_id : List Char) (metadata : Option JVal) : JVal :=
  .jobj [(pys "user_id", .jstr user_id),
         (pys "metadata", pyOrEmptyDict metadata),
         (pys "success", .jbool true),
         (pys "fallback", .jbool true)]

/-- ZepCloudClient.update_user, zep_cloud_server.py lines 165 to 183. -/
def rest_update_user (st : RestClient) (user_id : List Char)
    (metadata : Option JVal) : RestOutcome :=
  let md := pyNullNorm metadata
  if st.fallback_mode then .simulated (updateUserFbResult user_id md)
  else
    .request (pys "PATCH") (st.api_url ++ pys "/users/" ++ user_id)
      (some (.jobj [(pys "metadata", pyOrEmptyDict md)]))

/-- The simulated delete_user result of zep_cloud_server.py line 189. -/
def deleteUserFbResult : JVal :=
  .jobj [(pys "success", .jbool true), (pys "fallback", .jbool true)]

/-- ZepCloudClient.delete_user, zep_cloud_server.py lines 185 to 198. -/
def rest_delete_user (st : RestClient) (user_id : List Char) : RestOutcome :=
  if st.fallback_mode then .simulated deleteUserFbResult
  else .request (pys "DELETE") (st.api_url ++ pys "/users/" ++ user_id) none

/-- The simulated list_users result of zep_cloud_server.py line 204. -/
def listUsersFbResult : JVal :=
  .jobj [(pys "users", .jarr []),
         (pys "success", .jbool true),
         (pys "fallback", .jbool true)]

/-- ZepCloudClient.list_users, zep_cloud_server.py lines 200 to 215. -/
def rest_list_users (st : RestClient) (limit : Nat)
    (cursor : Option (List Char)) : RestOutcome :=
  if st.fallback_mode then .simulated listUsersFbResult
  else
    let url := st.api_url ++ pys "/users?limit=" ++ natToChars limit
    let url := if optStrTruthy cursor then
        url ++ pys "&cursor=" ++ (cursor.getD []) else url
    .request (pys "GET") url none

/-- The simulated search_graph result of zep_cloud_server.py line 231. -/
def searchGraphFbResult (user_id query : List Char) (limit : Nat) : JVal :=
  .jobj [(pys "query", .jstr query),
         (pys "user_id", .jstr user_id),
         (pys "limit", .jnum (natToChars limit)),
         (pys "edges", .jarr []),
         (pys "nodes", .jarr []),
         (pys "results", .jarr []),
         (pys "success", .jbool true),
         (pys "summary", .jstr (pys "No results found for query (fallback mode)")),
         (pys "fallback", .jbool true)]

/-- ZepCloudClient.search_graph, zep_cloud_server.py lines 217 to 287,
up to the remote call. -/
def rest_search_graph (st : RestClient) (user_id query : List Char)
    (limit : Nat) : RestOutcome :=
  if st.fallback_mode then .simulated (searchGraphFbResult user_id query limit)
  else
    .request (pys "POST") (st.api_url ++ pys "/graph/search")
      (some (.jobj [(pys "user_id", .jstr user_id),
                    (pys "query", .jstr query),
                    (pys "limit", .jnum (natToChars limit))]))

/-- The simulated add_graph_data result of zep_cloud_server.py line 303.
Its data_length field reports the length of the unmodified input. -/
def addGraphFbResult (user_id data_type : List Char) (dataLen : Nat) : JVal :=
  .jobj [(pys "success", .jbool true),
         (pys "user_id", .jstr user_id),
         (pys "data_type", .jstr data_type),
         (pys "data_length", .jnum (natToChars dataLen)),
         (pys "fallback", .jbool true),
         (pys "response",
          .jobj [(pys "uuid", .jstr (pys "simulated-uuid")),
                 (pys "content", .jstr (pys "Simulated content (fallback mode)")),
                 (pys "created_at", .jstr (pys "simulated-timestamp")),
                 (pys "processed", .jbool true)])]

/-- ZepCloudClient.add_graph_data, zep_cloud_server.py lines 289 to 357:
in fallback mode a simulated success is returned at once; otherwise data
longer than 10000 characters is truncated (not rejected), the data type
is validated, and the possibly truncated payload is posted. -/
def rest_add_graph_data (st : RestClient) (user_id data data_type : List Char) :
    RestOutcome :=
  if st.fallback_mode then
    .simulated (addGraphFbResult user_id data_type data.length)
  else
    let d := if 10000 < data.length then data.take 10000 else data
    if data_type ∈ validTypes then
      .request (pys "POST") (st.api_url ++ pys "/graph")
        (some (.jobj [(pys "user_id", .jstr user_id),
                      (pys "type", .jstr data_type),
                      (pys "data", .jstr d)]))
    else .reject (.invalidDataType data_type)

/-- Look up a top-level field of a JSON object result. -/
def jGetField (key : List Char) : JVal → Option JVal
  | .jobj fs => lookupField key fs
  | _ => none
where
  lookupField (key : List Char) : List (List Char × JVal) → Option JVal
    | [] => none
    | (k, v) :: t => if k = key then some v else lookupField key t

/-- A user record as the SDK returns it, with the fields the client
reads. -/
structure SdkUser where
  user_id : List Char
  metadata : Option JVal
  first_name : Option (List Char)
  last_name : Option (List Char)
  email : Option (List Char)

/-- ZepCloudClient.list_users of zep_cloud_client.py lines 55 to 79.  The
backend argument stands for the SDK call user.list_ordered: error for a
raised exception, otherwise the optional users field of the response.  Any
exception yields the empty list; a users field of None also yields the
empty list. -/
def sdk_list_users (backend : Except Unit (Option (List SdkUser))) : List JVal :=
  match backend with
  | .error _ => []
  | .ok resp =>
    (resp.getD []).map (fun u =>
      .jobj [(pys "user_id", .jstr u.user_id),
             (pys "metadata", pyOrEmptyDict u.metadata)])

/-- ZepCloudClient.get_user of zep_cloud_client.py lines 81 to 106.  The
backend argument stands for the SDK call user.get: error for a raised
exception, ok none for a falsy result.  Exceptions and absent users both
yield None. -/
def sdk_get_user (backend : Except Unit (Option SdkUser)) (user_id : List Char) :
    Option JVal :=
  match backend with
  | .error _ => none
  | .ok none => none
  | .ok (some u) =>
    some (.jobj [(pys "user_id", .jstr u.user_id),
                 (pys "metadata", pyOrEmptyDict u.metadata),
                 (pys "first_name", optStrJ u.first_name),
                 (pys "last_name", optStrJ u.last_name),
                 (pys "email", optStrJ u.email)])

/-- ZepCloudClient.delete_user of zep_cloud_client.py lines 186 to 202:
True on success, False when the SDK call raised. -/
def sdk_delete_user (backend : Except Unit Unit) (user_id : List Char) : Bool :=
  match backend with
  | .ok _ => true
  | .error _ => false

/-- json.dumps of an optional dict result, as the tool layer applies it:
Python None serializes to the text null. -/
def pyJsonDumpsOpt : Option JVal → List Char
  | none => pys "null"
  | some v => jsonDumps v

/-- The get_user tool of zep_cloud_server.py lines 414 to 430 with the SDK
client: json.dumps of the client result. -/
def tool_get_user (backend : Except Unit (Option SdkUser)) (user_id : List Char) :
    List Char :=
  pyJsonDumpsOpt (sdk_get_user backend user_id)

/-- The delete_user tool of zep_cloud_server.py lines 455 to 471 with the
SDK client: json.dumps of the boolean client result. -/
def tool_delete_user (backend : Except Unit Unit) (user_id : List Char) :
    List Char :=
  jsonDumps (.jbool (sdk_delete_user backend user_id))

/-- Whether a serialized tool result is a JSON object with a top-level
success field. -/
def resultHasSuccessField (s : List Char) : Bool :=
  match jsonParse s with
  | some (.jobj fs) => fs.any (fun p => p.1 == pys "success")
  | _ => false

/-- ZepCloudClient construction, zep_cloud_client.py lines 38 to 53: a
missing or empty ZEP_API_KEY environment variable raises ValueError;
otherwise the client starts with fallback_mode False. -/
structure SdkClient where
  api_key : List Char
  fallback_mode : Bool

/-- The constructor logic of zep_cloud_client.py lines 38 to 53. -/
def zepClientInit (envApiKey : Option (List Char)) : Except (List Char) SdkClient :=
  match envApiKey with
  | none => .error (pys "ZEP_API_KEY environment variable not set")
  | some k =>
    if k.isEmpty then .error (pys "ZEP_API_KEY environment variable not set")
    else .ok { api_key := k, fallback_mode := false }

/-- What the module-level startup code of zep_cloud_server.py lines 359
to 384 can observe about the constructed client: whether it has a
fallback_mode attribute, that attribute, and what list_users returns when
probed (none models Python None). -/
structure ProbeClient where
  hasFallbackAttr : Bool
  fallbackAttr : Bool
  listUsersResult : Option (List JVal)

/-- Outcome of module-level startup: whether a client was constructed and
the resulting global fallback_mode flag. -/
structure Startup where
  clientConstructed : Bool
  fallback_mode : Bool

/-- The module-level startup of zep_cloud_server.py lines 359 to 384: when
construction raises, the exception is caught and fallback_mode is set True
with no client; when the client has a fallback_mode attribute that value
is used; otherwise fallback_mode is True exactly when the probe list is
None or empty. -/
def serverStartup (ctor : Except (List Char) ProbeClient) : Startup :=
  match ctor with
  | .error _ => { clientConstructed := false, fallback_mode := true }
  | .ok c =>
    { clientConstructed := true,
      fallback_mode :=
        if c.hasFallbackAttr then c.fallbackAttr
        else
          match c.listUsersResult with
          | none => true
          | some l => l.isEmpty }

/-- The probe view of a constructed SDK client: it always has the
fallback_mode attribute (set in __init__), and its list_users never
returns None. -/
def sdkProbeClient (c : SdkClient)
    (listBackend : Except Unit (Option (List SdkUser))) : ProbeClient :=
  { hasFallbackAttr := true,
    fallbackAttr := c.fallback_mode,
    listUsersResult := some (sdk_list_users listBackend) }

/-- Module-level startup with the SDK client (the import in this
repository succeeds, so this is the deployed configuration). -/
def serverStartupSdk (envApiKey : Option (List Char))
    (listBackend : Except Unit (Option (List SdkUser))) : Startup :=
  serverStartup ((zepClientInit envApiKey).map (fun c => sdkProbeClient c listBackend))

/-- The truncation at the head of the search_graph tool, zep_cloud_server.py
lines 529 to 532. -/
def toolTruncQuery (q0 : List Char) : List Char :=
  if 8000 < q0.length then q0.take 8000 else q0

/-- The query rewriting of the search_graph tool, zep_cloud_server.py
lines 529 to 544: queries longer than 8000 characters are truncated, an
empty or all-whitespace query becomes the default text, and a query
missing the terms user, information and data gets the default suffix. -/
def toolProcessQuery (q0 : List Char) : List Char :=
  if (toolTruncQuery q0).isEmpty || (pyStrip (toolTruncQuery q0)).isEmpty then
    pys "user information"
  else if !listContains (pys "user") (pyLower (toolTruncQuery q0))
      && !listContains (pys "information") (pyLower (toolTruncQuery q0))
      && !listContains (pys "data") (pyLower (toolTruncQuery q0)) then
    toolTruncQuery q0 ++ pys " user information"
  else toolTruncQuery q0

/-- The truncation inside ZepCloudClient.search_graph of
zep_cloud_client.py lines 216 to 220. -/
def sdkSearchQuery (q : List Char) : List Char :=
  if 8000 < q.length then q.take 8000 else q

/-- The query the SDK client transmits for a search_graph tool call: the
tool rewriting followed by the SDK client truncation. -/
def transmittedSearchQuery (q : List Char) : List Char :=
  sdkSearchQuery (toolProcessQuery q)

theorem dropWhile_replicate_of_ws {c : Char} (h : isPyWs c = true) (n : Nat) :
    List.dropWhile isPyWs (List.replicate n c) = [] := by
  induction n with
  | zero => rfl
  | succ n ih => simp [List.replicate_succ, List.dropWhile_cons, h, ih]

theorem dropWhile_replicate_of_non_ws {c : Char} (h : isPyWs c = false) (n : Nat) :
    List.dropWhile isPyWs (List.replicate n c) = List.replicate n c := by
  cases n with
  | zero => rfl
  | succ n => simp [List.replicate_succ, List.dropWhile_cons, h]

theorem pyStrip_replicate_ws {c : Char} (h : isPyWs c = true) (n : Nat) :
    pyStrip (List.replicate n c) = [] := by
  simp [pyStrip, dropWhile_replicate_of_ws h]

theorem pyStrip_replicate_non_ws {c : Char} (h : isPyWs c = false) (n : Nat) :
    pyStrip (List.replicate n c) = List.replicate n c := by
  simp [pyStrip, dropWhile_replicate_of_non_ws h, List.reverse_replicate]

/-- C1 counterexample: with ZEP_API_KEY absent, client construction does
raise, but the module-level startup of zep_cloud_server.py catches the
exception and sets fallback_mode to True — the process enters fallback
mode, contradicting the claim that it never does. -/
theorem c1_missing_key_enters_fallback_cex :
    zepClientInit none = .error (pys "ZEP_API_KEY environment variable not set")
    ∧ serverStartupSdk none (.ok (some []))
        = { clientConstructed := false, fallback_mode := true } :=
  ⟨rfl, rfl⟩

/-- C1 amended: a missing or empty ZEP_API_KEY makes ZepCloudClient
construction raise ValueError, but the module-level server startup catches
the exception and continues without a client in fallback mode instead of
aborting the process. -/
theorem c1_amended_missing_key_caught_as_fallback
    (k : Option (List Char)) (lb : Except Unit (Option (List SdkUser)))
    (h : k = none ∨ k = some []) :
    zepClientInit k = .error (pys "ZEP_API_KEY environment variable not set")
    ∧ serverStartupSdk k lb = { clientConstructed := false, fallback_mode := true } := by
  rcases h with rfl | rfl
  · exact ⟨rfl, rfl⟩
  · exact ⟨rfl, rfl⟩

/-- C1 witness: the amended statement evaluated at an absent key. -/
theorem c1_amended_witness :
    ((none : Option (List Char)) = none ∨ (none : Option (List Char)) = some [])
    ∧ (zepClientInit none = .error (pys "ZEP_API_KEY environment variable not set")
       ∧ serverStartupSdk none (.ok (some []))
           = { clientConstructed := false, fallback_mode := true }) :=
  ⟨Or.inl rfl,
   c1_amended_missing_key_caught_as_fallback none (.ok (some [])) (Or.inl rfl)⟩

/-- C10 counterexample: with the SDK client constructed successfully and a
zero-user probe, startup ends with fallback_mode False — the claimed
starts-in-fallback behavior for an empty account does not occur, because
the probe branch is never taken (the SDK client always carries a
fallback_mode attribute). -/
theorem c10_zero_users_not_fallback_cex :
    serverStartupSdk (some (pys "key")) (.ok (some []))
        = { clientConstructed := true, fallback_mode := false }
    ∧ sdk_list_users (.ok (some [])) = [] :=
  ⟨rfl, rfl⟩

/-- C10 amended: SDK list_users returns the empty list on any remote
error, indistinguishable from a genuinely empty user base; but the probe
branch of the startup code runs only when the client lacks a fallback_mode
attribute, and the SDK client sets that attribute to False in its
constructor, so any successfully constructed SDK client — zero users or
not — starts with fallback_mode False. -/
theorem c10_amended_probe_branch_dead_with_sdk_client
    (k : Option (List Char)) (c : SdkClient)
    (lb : Except Unit (Option (List SdkUser)))
    (h : zepClientInit k = .ok c) :
    sdk_list_users (.error ()) = []
    ∧ sdk_list_users (.ok (some [])) = []
    ∧ (serverStartup (.ok (sdkProbeClient c lb))).fallback_mode = false := by
  refine ⟨rfl, rfl, ?_⟩
  have hc : c.fallback_mode = false := by
    cases k with
    | none => simp [zepClientInit] at h
    | some s =>
      by_cases hs : s.isEmpty
      · simp [zepClientInit, hs] at h
      · simp [zepClientInit, hs] at h
        rw [← h]
  simp [serverStartup, sdkProbeClient, hc]

/-- C10 witness: the amended statement evaluated at a concrete key and a
zero-user backend. -/
theorem c10_amended_witness :
    zepClientInit (some (pys "key"))
        = .ok { api_key := pys "key", fallback_mode := false }
    ∧ (sdk_list_users (.error ()) = []
       ∧ sdk_list_users (.ok (some [])) = []
       ∧ (serverStartup (.ok (sdkProbeClient
            { api_key := pys "key", fallback_mode := false }
            (.ok (some []))))).fallback_mode = false) :=
  ⟨rfl,
   c10_amended_probe_branch_dead_with_sdk_client (some (pys "key")) _ (.ok (some [])) rfl⟩

/-- C4: with the REST client in fallback mode, every operation returns its
synthesized result with success True and fallback True, and issues no
request: the outcome is the simulated constructor, whose only other
alternatives are a pre-network rejection or a network request. -/
theorem c4_fallback_mode_all_ops_simulated
    (url uid q data dt : List Char) (md : Option JVal)
    (fn ln em cursor : Option (List Char)) (lim : Nat) :
    (rest_create_user ⟨url, true⟩ uid md fn ln em
        = .simulated (createUserFbResult uid (pyNullNorm md) fn ln em)
      ∧ jGetField (pys "success") (createUserFbResult uid (pyNullNorm md) fn ln em)
          = some (.jbool true)
      ∧ jGetField (pys "fallback") (createUserFbResult uid (pyNullNorm md) fn ln em)
          = some (.jbool true))
    ∧ (rest_get_user ⟨url, true⟩ uid = .simulated (getUserFbResult uid)
      ∧ jGetField (pys "success") (getUserFbResult uid) = some (.jbool true)
      ∧ jGetField (pys "fallback") (getUserFbResult uid) = some (.jbool true))
    ∧ (rest_update_user ⟨url, true⟩ uid md
        = .simulated (updateUserFbResult uid (pyNullNorm md))
      ∧ jGetField (pys "success") (updateUserFbResult uid (pyNullNorm md))
          = some (.jbool true)
      ∧ jGetField (pys "fallback") (updateUserFbResult uid (pyNullNorm md))
          = some (.jbool true))
    ∧ (rest_delete_user ⟨url, true⟩ uid = .simulated deleteUserFbResult
      ∧ jGetField (pys "success") deleteUserFbResult = some (.jbool true)
      ∧ jGetField (pys "fallback") deleteUserFbResult = some (.jbool true))
    ∧ (rest_list_users ⟨url, true⟩ lim cursor = .simulated listUsersFbResult
      ∧ jGetField (pys "success") listUsersFbResult = some (.jbool true)
      ∧ jGetField (pys "fallback") listUsersFbResult = some (.jbool true))
    ∧ (rest_search_graph ⟨url, true⟩ uid q lim
        = .simulated (searchGraphFbResult uid q lim)
      ∧ jGetField (pys "success") (searchGraphFbResult uid q lim) = some (.jbool true)
      ∧ jGetField (pys "fallback") (searchGraphFbResult uid q lim) = some (.jbool true))
    ∧ (rest_add_graph_data ⟨url, true⟩ uid data dt
        = .simulated (addGraphFbResult uid dt data.length)
      ∧ jGetField (pys "success") (addGraphFbResult uid dt data.length)
          = some (.jbool true)
      ∧ jGetField (pys "fallback") (addGraphFbResult uid dt data.length)
          = some (.jbool true)) :=
  ⟨⟨rfl, rfl, rfl⟩, ⟨rfl, rfl, rfl⟩, ⟨rfl, rfl, rfl⟩, ⟨rfl, rfl, rfl⟩,
   ⟨rfl, rfl, rfl⟩, ⟨rfl, rfl, rfl⟩, ⟨rfl, rfl, rfl⟩⟩

/-- C9: a string payload that already parses as JSON is forwarded through
the add_graph_data tool and the SDK client unchanged — the transmitted
data equals the input string — and the outer-quote repair flag stays
false, so no repair heuristic fires. -/
theorem c9_valid_json_forwarded_unchanged (uid s : List Char) (v : JVal)
    (huid : uid ≠ []) (hparse : jsonParse s = some v) (hlen : s.length ≤ 100000) :
    tool_add_graph_data uid (.pstr s) (pys "json") = .send (.pstr s) false := by
  have hmem : (pys "json") ∈ validTypes := by decide
  have hne : uid.isEmpty = false := by
    cases uid with
    | nil => exact absurd rfl huid
    | cons a t => rfl
  have hsz : ¬ 100000 < s.length := by omega
  simp [tool_add_graph_data, toolJsonFix, hparse, hmem, sdk_add_graph_data,
        sdkJsonNormalize, hne, hsz]

/-- C9 witness: the theorem evaluated at a concrete valid JSON payload. -/
theorem c9_valid_json_witness :
    (pys "u1" ≠ [] ∧ jsonParse (pys "\x7b\"a\": 1\x7d")
        = some (.jobj [(pys "a", .jnum (pys "1"))])
      ∧ (pys "\x7b\"a\": 1\x7d").length ≤ 100000)
    ∧ tool_add_graph_data (pys "u1") (.pstr (pys "\x7b\"a\": 1\x7d")) (pys "json")
        = .send (.pstr (pys "\x7b\"a\": 1\x7d")) false :=
  ⟨⟨by decide, by rfl, by decide⟩,
   c9_valid_json_forwarded_unchanged (pys "u1") _ _ (by decide) rfl (by decide)⟩

/-- C5 counterexample: a query of 8001 whitespace characters is longer
than 8000 characters, yet what reaches the remote service is the 16
character default text, not an 8000 character truncation: the replacement
rule runs after the truncation and overrides it. -/
theorem c5_long_whitespace_query_cex :
    transmittedSearchQuery (List.replicate 8001 ' ') = pys "user information"
    ∧ (transmittedSearchQuery (List.replicate 8001 ' ')).length ≠ 8000 := by
  have hmin : min 8000 8001 = 8000 := by omega
  have htr : toolTruncQuery (List.replicate 8001 ' ') = List.replicate 8000 ' ' := by
    unfold toolTruncQuery
    rw [if_pos (by rw [List.length_replicate]; omega), List.take_replicate, hmin]
  have h1 : transmittedSearchQuery (List.replicate 8001 ' ') = pys "user information" := by
    unfold transmittedSearchQuery toolProcessQuery
    rw [htr, pyStrip_replicate_ws (by decide), List.isEmpty_nil, Bool.or_true, if_pos rfl]
    decide
  refine ⟨h1, ?_⟩
  rw [h1]
  decide

/-- C5 amended: an empty or all-whitespace query (of at most 8000
characters) is replaced by the default text before the client call; a
query longer than 8000 characters whose truncated prefix is not all
whitespace reaches the remote service with exactly 8000 characters (the
tool truncates, and the SDK client re-truncates whatever the enrichment
appended); but a longer-than-8000 query whose truncation is all
whitespace is replaced by the 16 character default instead. -/
theorem c5_amended_truncation_and_default (q : List Char) :
    (q.length ≤ 8000 → (pyStrip q).isEmpty = true →
      toolProcessQuery q = pys "user information"
      ∧ transmittedSearchQuery q = pys "user information")
    ∧ (8000 < q.length → (pyStrip (q.take 8000)).isEmpty = false →
      (transmittedSearchQuery q).length = 8000) := by
  constructor
  · intro hlen hstrip
    have htr : toolTruncQuery q = q := by
      unfold toolTruncQuery
      rw [if_neg (by omega)]
    have h1 : toolProcessQuery q = pys "user information" := by
      unfold toolProcessQuery
      rw [htr, hstrip, Bool.or_true, if_pos rfl]
    refine ⟨h1, ?_⟩
    unfold transmittedSearchQuery
    rw [h1]
    decide
  · intro hlen hstrip
    have htr : toolTruncQuery q = q.take 8000 := by
      unfold toolTruncQuery
      rw [if_pos hlen]
    have htl : (q.take 8000).length = 8000 := by
      rw [List.length_take]
      omega
    have hne : (q.take 8000).isEmpty = false := by
      cases h : q.take 8000 with
      | nil => rw [h] at htl; simp at htl
      | cons a t => rfl
    unfold transmittedSearchQuery toolProcessQuery
    rw [htr, hne, hstrip, Bool.or_self, if_neg Bool.false_ne_true]
    by_cases hkw :
        (!listContains (pys "user") (pyLower (q.take 8000))
          && !listContains (pys "information") (pyLower (q.take 8000))
          && !listContains (pys "data") (pyLower (q.take 8000))) = true
    · rw [if_pos hkw]
      have h2 : (List.take 8000 q ++ pys " user information").take 8000
          = List.take 8000 q := by
        rw [List.take_append_eq_append_take, htl, Nat.sub_self, List.take_zero,
            List.append_nil, List.take_take, Nat.min_self]
      unfold sdkSearchQuery
      rw [if_pos (by rw [List.length_append, htl]; decide), h2]
      exact htl
    · rw [if_neg hkw]
      unfold sdkSearchQuery
      rw [if_neg (by rw [htl]; omega)]
      exact htl

/-- C5 witness: the amended statement evaluated at an all-whitespace query
and at a long non-whitespace query. -/
theorem c5_amended_witness :
    (([' '] : List Char).length ≤ 8000 ∧ (pyStrip [' ']).isEmpty = true
      ∧ (toolProcessQuery [' '] = pys "user information"
         ∧ transmittedSearchQuery [' '] = pys "user information"))
    ∧ (8000 < (List.replicate 8001 'a').length
      ∧ (pyStrip ((List.replicate 8001 'a').take 8000)).isEmpty = false
      ∧ (transmittedSearchQuery (List.replicate 8001 'a')).length = 8000) := by
  have hlen : 8000 < (List.replicate 8001 'a').length := by
    rw [List.length_replicate]
    omega
  have h2 : (pyStrip ((List.replicate 8001 'a').take 8000)).isEmpty = false := by
    rw [List.take_replicate, show min 8000 8001 = 8000 from by omega,
        pyStrip_replicate_non_ws (by decide)]
    rfl
  exact ⟨⟨by decide, by decide,
          (c5_amended_truncation_and_default [' ']).1 (by decide) (by decide)⟩,
         ⟨hlen, h2,
          (c5_amended_truncation_and_default (List.replicate 8001 'a')).2 hlen h2⟩⟩

/-- C2 counterexample: a 10001 character payload on the REST-backed path
is not rejected — the client truncates it to 10000 characters and posts
the truncated payload to the graph endpoint. -/
theorem c2_rest_truncates_instead_of_rejecting_cex :
    rest_add_graph_data ⟨pys "https://api.getzep.com/api/v2", false⟩ (pys "u1")
        (List.replicate 10001 'a') (pys "text")
      = .request (pys "POST") (pys "https://api.getzep.com/api/v2" ++ pys "/graph")
          (some (.jobj [(pys "user_id", .jstr (pys "u1")),
                        (pys "type", .jstr (pys "text")),
                        (pys "data", .jstr (List.replicate 10000 'a'))])) := by
  have h1 : (10000 : Nat) < (List.replicate 10001 'a').length := by
    rw [List.length_replicate]
    omega
  have h2 : (List.replicate 10001 'a').take 10000 = List.replicate 10000 'a' := by
    rw [List.take_replicate, show min 10000 10001 = 10000 from by omega]
  unfold rest_add_graph_data
  rw [if_neg Bool.false_ne_true]
  rw [if_pos h1, h2]
  rw [if_pos (show pys "text" ∈ validTypes from by decide)]

/-- C2 amended: the SDK-backed add_graph_data rejects any string payload
longer than 100000 with a size error before transmission, for every valid
kind; the REST-backed add_graph_data does not reject oversize payloads —
it truncates them to 10000 characters and transmits the truncated
payload. -/
theorem c2_amended_size_limits (uid s url dt : List Char)
    (huid : uid ≠ []) (hdt : dt ∈ validTypes) :
    (100000 < s.length →
      sdk_add_graph_data uid (some (.pstr s)) dt
        = .reject (.sizeExceeds100KB s.length))
    ∧ (10000 < s.length →
      rest_add_graph_data ⟨url, false⟩ uid s dt
        = .request (pys "POST") (url ++ pys "/graph")
            (some (.jobj [(pys "user_id", .jstr uid), (pys "type", .jstr dt),
                          (pys "data", .jstr (s.take 10000))]))) := by
  have hne : uid.isEmpty = false := by
    cases uid with
    | nil => exact absurd rfl huid
    | cons a t => rfl
  constructor
  · intro hlen
    simp [sdk_add_graph_data, hne, hdt, hlen]
  · intro hlen
    simp [rest_add_graph_data, hdt, hlen]

/-- C2 witness: the amended statement evaluated at a 100001 character
payload on the SDK path and the REST path. -/
theorem c2_amended_witness :
    (pys "u1" ≠ [] ∧ pys "text" ∈ validTypes
      ∧ 100000 < (List.replicate 100001 'a').length
      ∧ 10000 < (List.replicate 100001 'a').length)
    ∧ sdk_add_graph_data (pys "u1") (some (.pstr (List.replicate 100001 'a')))
        (pys "text")
        = .reject (.sizeExceeds100KB (List.replicate 100001 'a').length)
    ∧ rest_add_graph_data ⟨pys "U", false⟩ (pys "u1") (List.replicate 100001 'a')
        (pys "text")
        = .request (pys "POST") (pys "U" ++ pys "/graph")
            (some (.jobj [(pys "user_id", .jstr (pys "u1")),
                          (pys "type", .jstr (pys "text")),
                          (pys "data", .jstr ((List.replicate 100001 'a').take 10000))])) :=
  ⟨⟨by decide, by decide, by rw [List.length_replicate]; omega,
    by rw [List.length_replicate]; omega⟩,
   (c2_amended_size_limits (pys "u1") (List.replicate 100001 'a') (pys "U")
      (pys "text") (by decide) (by decide)).1
     (by rw [List.length_replicate]; omega),
   (c2_amended_size_limits (pys "u1") (List.replicate 100001 'a') (pys "U")
      (pys "text") (by decide) (by decide)).2
     (by rw [List.length_replicate]; omega)⟩

/-- C3 counterexample: the REST-backed client in fallback mode returns a
synthesized success for an invalid data type — validation is skipped, not
a success-false rejection as the claim requires for every path and mode. -/
theorem c3_fallback_skips_type_validation_cex :
    rest_add_graph_data ⟨pys "https://api.getzep.com/api/v2", true⟩ (pys "u1")
        (pys "hello") (pys "bogus")
      = .simulated (addGraphFbResult (pys "u1") (pys "bogus") 5)
    ∧ jGetField (pys "success") (addGraphFbResult (pys "u1") (pys "bogus") 5)
        = some (.jbool true)
    ∧ pys "bogus" ∉ validTypes :=
  ⟨rfl, rfl, by decide⟩

/-- C3 amended: for a data type outside text, json, message, the SDK
client rejects before any network contact, the tool handler rejects with
the invalid-data-type error before calling the client, and the REST
client rejects before the network when connected; but the REST client in
fallback mode skips the validation and returns its synthesized success. -/
theorem c3_amended_type_validation (uid url data dt : List Char)
    (d : Option PyData) (hdt : dt ∉ validTypes) :
    (∃ e, sdk_add_graph_data uid d dt = .reject e)
    ∧ (∀ dd : PyData, tool_add_graph_data uid dd dt
        = .reject (.invalidDataType dt))
    ∧ rest_add_graph_data ⟨url, false⟩ uid data dt
        = .reject (.invalidDataType dt)
    ∧ rest_add_graph_data ⟨url, true⟩ uid data dt
        = .simulated (addGraphFbResult uid dt data.length) := by
  refine ⟨?_, ?_, ?_, rfl⟩
  · by_cases hu : uid.isEmpty
    · exact ⟨.userIdRequired, by simp [sdk_add_graph_data, hu]⟩
    · cases d with
      | none => exact ⟨.dataRequired, by simp [sdk_add_graph_data, hu]⟩
      | some d0 =>
        exact ⟨.invalidDataType dt, by simp [sdk_add_graph_data, hu, hdt]⟩
  · intro dd
    cases dd with
    | pstr s => simp [tool_add_graph_data, hdt]
    | pdict fs => simp [tool_add_graph_data, hdt]
  · simp [rest_add_graph_data, hdt]

/-- C3 witness: the amended statement evaluated at a concrete invalid data
type. -/
theorem c3_amended_witness :
    pys "bogus" ∉ validTypes
    ∧ ((∃ e, sdk_add_graph_data (pys "u1") (some (.pstr (pys "hi"))) (pys "bogus")
          = .reject e)
      ∧ (∀ dd : PyData, tool_add_graph_data (pys "u1") dd (pys "bogus")
          = .reject (.invalidDataType (pys "bogus")))
      ∧ rest_add_graph_data ⟨pys "U", false⟩ (pys "u1") (pys "hi") (pys "bogus")
          = .reject (.invalidDataType (pys "bogus"))
      ∧ rest_add_graph_data ⟨pys "U", true⟩ (pys "u1") (pys "hi") (pys "bogus")
          = .simulated (addGraphFbResult (pys "u1") (pys "bogus") 2)) :=
  ⟨by decide,
   c3_amended_type_validation (pys "u1") (pys "U") (pys "hi") (pys "bogus")
     (some (.pstr (pys "hi"))) (by decide)⟩

/-- C6 counterexample: across the tool boundary, a failing delete_user on
the SDK-backed client serializes to the JSON text false and a failing
get_user to null — neither carries a success field, and neither carries an
error string. -/
theorem c6_results_without_success_field_cex :
    tool_delete_user (.error ()) (pys "u1") = pys "false"
    ∧ resultHasSuccessField (tool_delete_user (.error ()) (pys "u1")) = false
    ∧ tool_get_user (.error ()) (pys "u1") = pys "null"
    ∧ resultHasSuccessField (tool_get_user (.error ()) (pys "u1")) = false :=
  ⟨rfl, rfl, rfl, rfl⟩

/-- C6 amended: every tool result is JSON text (the json.dumps of the
client return value), but the success field is not universal: with the
SDK-backed client, get_user serializes to null on error or absence and
delete_user to a bare boolean — true on success and false on failure,
with no success key and no error string — while the synthesized REST
fallback results do carry success true. -/
theorem c6_amended_success_field_not_universal (uid dt : List Char)
    (b1 : Except Unit (Option SdkUser)) (b2 : Except Unit Unit) (dlen : Nat) :
    (∃ r : Option JVal, tool_get_user b1 uid = pyJsonDumpsOpt r)
    ∧ (∃ b : Bool, tool_delete_user b2 uid = jsonDumps (.jbool b))
    ∧ tool_get_user (.error ()) uid = pys "null"
    ∧ resultHasSuccessField (tool_get_user (.error ()) uid) = false
    ∧ tool_delete_user (.error ()) uid = pys "false"
    ∧ resultHasSuccessField (tool_delete_user (.error ()) uid) = false
    ∧ tool_delete_user (.ok ()) uid = pys "true"
    ∧ resultHasSuccessField (tool_delete_user (.ok ()) uid) = false
    ∧ jGetField (pys "success") (addGraphFbResult uid dt dlen) = some (.jbool true) :=
  ⟨⟨sdk_get_user b1 uid, rfl⟩, ⟨sdk_delete_user b2 uid, rfl⟩,
   rfl, rfl, rfl, rfl, rfl, rfl, rfl⟩

/-- C7 counterexample: the payload consisting of a well-formed JSON object
wrapped in one pair of single quotes satisfies the claim hypothesis (one
matching outer quote pair, interior starting with a brace, interior
parses), yet the SDK client does not strip it — it rejects the payload as
invalid JSON, because its repair handles only double quotes. -/
theorem c7_single_quote_wrap_rejected_cex :
    sdk_add_graph_data (pys "u1")
        (some (.pstr (sqc :: (pys "\x7b\"a\": 1\x7d" ++ [sqc])))) (pys "json")
      = .reject .invalidJsonData
    ∧ pyStartsWith sqc (sqc :: (pys "\x7b\"a\": 1\x7d" ++ [sqc])) = true
    ∧ pyEndsWith sqc (sqc :: (pys "\x7b\"a\": 1\x7d" ++ [sqc])) = true
    ∧ jsonParse (pySlice1m1 (sqc :: (pys "\x7b\"a\": 1\x7d" ++ [sqc])))
        = some (.jobj [(pys "a", .jnum (pys "1"))]) :=
  ⟨rfl, rfl, rfl, rfl⟩

/-- C7 amended: the SDK client strips exactly one pair of outer double
quotes — when the whole payload fails to parse as JSON, has length above
two, and the interior lstrips to a brace or bracket and parses — and
forwards the stripped interior with the repair flag set; single-quote
wraps are not handled by the client, and any payload that already parses
as JSON (for example a quoted string whose interior looks like an object)
is forwarded unchanged, outer quotes included, with no repair. -/
theorem c7_amended_double_quote_strip_only (uid s : List Char) (v : JVal)
    (huid : uid ≠ []) (hslen : s.length ≤ 100000)
    (hfail : jsonParse s = none)
    (hdq : pyStartsWith '"' s = true) (hdqe : pyEndsWith '"' s = true)
    (hgt : 2 < s.length)
    (hbr : pyStartsWith '{' (pyLstrip (pySlice1m1 s)) = true
         ∨ pyStartsWith '[' (pyLstrip (pySlice1m1 s)) = true)
    (hinner : jsonParse (pySlice1m1 s) = some v) :
    sdk_add_graph_data uid (some (.pstr s)) (pys "json")
      = .send (.pstr (pySlice1m1 s)) true
    ∧ (∀ t w, jsonParse t = some w →
        sdkJsonNormalize t = .ok (t, false) ∧ toolJsonFix t = .ok t) := by
  have hne : uid.isEmpty = false := by
    cases uid with
    | nil => exact absurd rfl huid
    | cons a u => rfl
  have hsz : ¬ 100000 < s.length := by omega
  have hmem : pys "json" ∈ validTypes := by decide
  constructor
  · rcases hbr with hb | hb
    · simp [sdk_add_graph_data, sdkJsonNormalize, hne, hsz, hfail, hdq, hdqe,
            hgt, hb, hinner, hmem]
    · simp [sdk_add_graph_data, sdkJsonNormalize, hne, hsz, hfail, hdq, hdqe,
            hgt, hb, hinner, hmem]
  · intro t w hw
    exact ⟨by simp [sdkJsonNormalize, hw], by simp [toolJsonFix, hw]⟩

/-- C7 witness: the amended statement evaluated at a double-quote wrapped
object payload, and the passthrough conjunct at a small valid payload. -/
theorem c7_amended_witness :
    (pys "u1" ≠ []
      ∧ ('"' :: (pys "\x7b\"a\": 1\x7d" ++ ['"'])).length ≤ 100000
      ∧ jsonParse ('"' :: (pys "\x7b\"a\": 1\x7d" ++ ['"'])) = none
      ∧ 2 < ('"' :: (pys "\x7b\"a\": 1\x7d" ++ ['"'])).length)
    ∧ sdk_add_graph_data (pys "u1")
        (some (.pstr ('"' :: (pys "\x7b\"a\": 1\x7d" ++ ['"'])))) (pys "json")
        = .send (.pstr (pySlice1m1 ('"' :: (pys "\x7b\"a\": 1\x7d" ++ ['"'])))) true
    ∧ (sdkJsonNormalize (pys "1") = .ok (pys "1", false)
       ∧ toolJsonFix (pys "1") = .ok (pys "1")) :=
  ⟨⟨by decide, by decide, rfl, by decide⟩,
   (c7_amended_double_quote_strip_only (pys "u1")
      ('"' :: (pys "\x7b\"a\": 1\x7d" ++ ['"'])) (.jobj [(pys "a", .jnum (pys "1"))])
      (by decide) (by decide) rfl rfl rfl (by decide) (Or.inl rfl) rfl).1,
   (c7_amended_double_quote_strip_only (pys "u1")
      ('"' :: (pys "\x7b\"a\": 1\x7d" ++ ['"'])) (.jobj [(pys "a", .jnum (pys "1"))])
      (by decide) (by decide) rfl rfl rfl (by decide) (Or.inl rfl) rfl).2
     (pys "1") (.jnum (pys "1")) rfl⟩

/-- C8 counterexample: a single-quoted Python literal dict is rejected by
the SDK-backed add_graph_data as invalid JSON — the literal repair exists
only in the tool handler, so the claimed recovery does not hold on every
ingestion path. -/
theorem c8_sdk_client_rejects_python_literal_cex :
    sdk_add_graph_data (pys "u1")
        (some (.pstr (['{', sqc] ++ pys "name" ++ [sqc] ++ pys ": " ++ [sqc]
          ++ pys "Alice" ++ [sqc, '}'])))
        (pys "json")
      = .reject .invalidJsonData
    ∧ pyLiteralParse (['{', sqc] ++ pys "name" ++ [sqc] ++ pys ": " ++ [sqc]
          ++ pys "Alice" ++ [sqc, '}'])
        = some (.jobj [(pys "name", .jstr (pys "Alice"))]) :=
  ⟨rfl, rfl⟩

/-- C8 amended: a payload that fails JSON parsing, starts with a brace,
and after stripping is a brace-delimited Python literal accepted by
ast.literal_eval, is re-serialized to canonical JSON and forwarded by the
tool-handler ingestion path; the SDK client path performs no literal
repair and rejects the same payload as invalid JSON. -/
theorem c8_amended_literal_repair_tool_only (uid s : List Char) (v w : JVal)
    (huid : uid ≠ []) (hfail : jsonParse s = none)
    (hbrace : pyStartsWith '{' s = true)
    (hsb : pyStartsWith '{' (pyStrip s) = true)
    (hse : pyEndsWith '}' (pyStrip s) = true)
    (hlit : pyLiteralParse (pyStrip s) = some v)
    (hdv : jsonParse (jsonDumps v) = some w)
    (hslen : s.length ≤ 100000) (hdlen : (jsonDumps v).length ≤ 100000) :
    tool_add_graph_data uid (.pstr s) (pys "json")
      = .send (.pstr (jsonDumps v)) false
    ∧ sdk_add_graph_data uid (some (.pstr s)) (pys "json")
      = .reject .invalidJsonData := by
  have hne : uid.isEmpty = false := by
    cases uid with
    | nil => exact absurd rfl huid
    | cons a u => rfl
  obtain ⟨t, rfl⟩ : ∃ t, s = '{' :: t := by
    cases s with
    | nil => simp [pyStartsWith] at hbrace
    | cons a t =>
      refine ⟨t, ?_⟩
      have ha : a = '{' := by
        have hb := hbrace
        simp [pyStartsWith] at hb
        rw [hb]
      rw [ha]
  have hsq : pyStartsWith sqc ('{' :: t) = false := rfl
  have hdq : pyStartsWith '"' ('{' :: t) = false := rfl
  have hmem : pys "json" ∈ validTypes := by decide
  have hsz1 : ¬ 100000 < t.length + 1 := by
    have h := hslen
    simp [List.length_cons] at h
    omega
  have hfix : toolJsonFix ('{' :: t) = .ok (jsonDumps v) := by
    simp [toolJsonFix, hfail, hsq, hdq, hsb, hse, hlit, hdv]
  have hsdk2 : sdk_add_graph_data uid (some (.pstr (jsonDumps v))) (pys "json")
      = .send (.pstr (jsonDumps v)) false := by
    simp [sdk_add_graph_data, sdkJsonNormalize, hne, hdv, hmem,
          show ¬ 100000 < (jsonDumps v).length from by omega]
  constructor
  · simp [tool_add_graph_data, hfix, hsdk2, hmem]
  · simp [sdk_add_graph_data, sdkJsonNormalize, hne, hfail, hdq, hmem, hsz1]

/-- C8 witness: the amended statement evaluated at a concrete single
quoted literal dict. -/
theorem c8_amended_witness :
    (pys "u1" ≠ []
      ∧ jsonParse (['{', sqc, 'a', sqc] ++ pys ": 1\x7d") = none
      ∧ pyStartsWith '{' (['{', sqc, 'a', sqc] ++ pys ": 1\x7d") = true
      ∧ pyLiteralParse (pyStrip (['{', sqc, 'a', sqc] ++ pys ": 1\x7d"))
          = some (.jobj [(pys "a", .jnum (pys "1"))]))
    ∧ tool_add_graph_data (pys "u1")
        (.pstr (['{', sqc, 'a', sqc] ++ pys ": 1\x7d")) (pys "json")
        = .send (.pstr (jsonDumps (.jobj [(pys "a", .jnum (pys "1"))]))) false
    ∧ sdk_add_graph_data (pys "u1")
        (some (.pstr (['{', sqc, 'a', sqc] ++ pys ": 1\x7d"))) (pys "json")
        = .reject .invalidJsonData :=
  ⟨⟨by decide, rfl, rfl, rfl⟩,
   (c8_amended_literal_repair_tool_only (pys "u1")
      (['{', sqc, 'a', sqc] ++ pys ": 1\x7d") (.jobj [(pys "a", .jnum (pys "1"))])
      (.jobj [(pys "a", .jnum (pys "1"))])
      (by decide) rfl rfl rfl rfl rfl rfl (by decide) (by decide)).1,
   (c8_amended_literal_repair_tool_only (pys "u1")
      (['{', sqc, 'a', sqc] ++ pys ": 1\x7d") (.jobj [(pys "a", .jnum (pys "1"))])
      (.jobj [(pys "a", .jnum (pys "1"))])
      (by decide) rfl rfl rfl rfl rfl rfl (by decide) (by decide)).2⟩
